import Mathlib

/-!
Verification development for the RouteLogix HOS (Hours-of-Service) trip
planner.  The repository ships a React frontend whose services layer
(`transformTripPlanResponse`, `tripAPI.getTripLogs`, ...) is embedded
faithfully below in the `Frontend` namespace.  The HOS scheduling engine
itself (Duty Clock, Break/Rest Policy, Fuel Stop Planner, Schedule
Builder, Log Grid Renderer, Violation Detector) lives in the Django
backend, which is not part of the given sources; those components are
modelled from the specification in the `HOS` namespace, with every such
definition marked `Modelled from the spec:` in its doc comment.
All quantities are naturals (miles, minutes) or rationals where the
source uses JavaScript numbers.
-/

namespace HOS

/-- Modelled from the spec: the two recognized duty-cycle types,
70 hours over 8 days or 60 hours over 7 days (missing backend Duty
Clock configuration). -/
inductive CycleType where
  | c70_8
  | c60_7
deriving DecidableEq, Repr

/-- Modelled from the spec: the four mutually exclusive duty statuses of
the data model (missing backend DutyStatus enum). -/
inductive DutyStatus where
  | off_duty
  | sleeper
  | driving
  | on_duty
deriving DecidableEq, Repr

/-- Modelled from the spec: cycle on-duty ceiling in minutes, 70 hours
for the 8-day cycle and 60 hours for the 7-day cycle (missing backend
Duty Clock). -/
def cycleCeilingMin : CycleType → Nat
  | .c70_8 => 4200
  | .c60_7 => 3600

/-- Modelled from the spec: CycleState tracks the cycle type, the
rolling on-duty minutes used, and the current run of consecutive
off-duty/sleeper minutes (missing backend CycleState). -/
structure CycleState where
  cycleType : CycleType
  usedMin : Nat
  consecOffMin : Nat
deriving DecidableEq, Repr

/-- Modelled from the spec: a consecutive off-duty/sleeper block of at
least 34 hours (2040 minutes) resets cycle hours to zero, the
"restart" (missing backend Duty Clock). -/
def applyRestart (s : CycleState) : CycleState :=
  if 2040 ≤ s.consecOffMin then { s with usedMin := 0 } else s

/-- Modelled from the spec: the Duty Clock `advance(status, duration)`
contract.  The restart check is applied on entry; the call returns the
new state together with the cycle minutes used that it reports (the
post-restart usage at the start of the call) (missing backend Duty
Clock). -/
def advance (s : CycleState) (st : DutyStatus) (durationMin : Nat) :
    CycleState × Nat :=
  let s0 := applyRestart s
  match st with
  | .off_duty =>
      ({ s0 with consecOffMin := s0.consecOffMin + durationMin }, s0.usedMin)
  | .sleeper =>
      ({ s0 with consecOffMin := s0.consecOffMin + durationMin }, s0.usedMin)
  | .driving =>
      ({ s0 with usedMin := s0.usedMin + durationMin, consecOffMin := 0 },
        s0.usedMin)
  | .on_duty =>
      ({ s0 with usedMin := s0.usedMin + durationMin, consecOffMin := 0 },
        s0.usedMin)

/-- Modelled from the spec: the Fuel Stop Planner, one stop every 1000
miles of cumulative route distance, starting at mile 1000 and excluding
the final destination (missing backend Fuel Stop Planner). -/
def fuelStopPlan (totalDistance : Nat) : List Nat :=
  (List.range ((totalDistance - 1) / 1000)).map (fun k => 1000 * (k + 1))

/-- Modelled from the spec: a DutyPeriod inside one day, recorded as a
status and a duration in minutes; periods of a day are contiguous from
midnight, so start offsets are recovered by prefix sums (missing
backend DutyPeriod). -/
structure DutyPeriod where
  status : DutyStatus
  durationMin : Nat
deriving DecidableEq, Repr

/-- Total minutes spent in a given status across a list of periods. -/
def statusTotal (st : DutyStatus) (entries : List DutyPeriod) : Nat :=
  (entries.map (fun e => if e.status = st then e.durationMin else 0)).sum

/-- Sum of the durations of a list of duty periods. -/
def durSum (entries : List DutyPeriod) : Nat :=
  (entries.map (fun e => e.durationMin)).sum

/-- Modelled from the spec: a DailyLog with its ordered duty periods
and the four per-status total fields (missing backend DailyLog). -/
structure DailyLog where
  entries : List DutyPeriod
  total_driving_time : Nat
  total_on_duty_time : Nat
  total_sleeper_time : Nat
  total_off_duty_time : Nat
deriving DecidableEq, Repr

/-- Build a DailyLog from its periods, computing the four totals. -/
def mkDailyLog (entries : List DutyPeriod) : DailyLog :=
  { entries := entries
    total_driving_time := statusTotal .driving entries
    total_on_duty_time := statusTotal .on_duty entries
    total_sleeper_time := statusTotal .sleeper entries
    total_off_duty_time := statusTotal .off_duty entries }

/-- Modelled from the spec: one generated day of the Schedule Builder.
Given the remaining driving minutes of the trip, the day drives up to
the 11-hour (660-minute) daily ceiling, inserting the mandatory
30-minute break once 8 hours (480 minutes) of driving have accumulated,
then takes the 10-hour rest when more driving remains, and pads the
rest of the 24 hours with off duty (missing backend Schedule
Builder). -/
def mkDay (rem : Nat) : DailyLog :=
  let d := min rem 660
  let segs : List DutyPeriod :=
    if d ≤ 480 then [⟨.driving, d⟩]
    else [⟨.driving, 480⟩, ⟨.off_duty, 30⟩, ⟨.driving, d - 480⟩]
  let rest : List DutyPeriod := if 660 < rem then [⟨.sleeper, 600⟩] else []
  let used := d + (if d ≤ 480 then 0 else 30) + (if 660 < rem then 600 else 0)
  mkDailyLog (segs ++ rest ++ [⟨.off_duty, 1440 - used⟩])

/-- Modelled from the spec: the single mostly-off-duty day produced for
a zero-distance trip, covering pickup and dropoff handling as a short
on-duty period (missing backend Schedule Builder). -/
def zeroDay : DailyLog :=
  mkDailyLog [⟨.on_duty, 60⟩, ⟨.off_duty, 1380⟩]

/-- Fuel-indexed day generation loop; the fuel argument only bounds the
recursion depth and `rem ≤ fuel` always holds at every call site. -/
def buildDaysAux : Nat → Nat → List DailyLog
  | _, 0 => []
  | 0, _ + 1 => []
  | f + 1, r + 1 => mkDay (r + 1) :: buildDaysAux f (r + 1 - min (r + 1) 660)

/-- Modelled from the spec: the Schedule Builder day loop; one
iteration per generated day, each consuming up to 660 minutes of the
remaining driving time (missing backend Schedule Builder). -/
def buildDays (drivingMin : Nat) : List DailyLog :=
  buildDaysAux drivingMin drivingMin

/-- Modelled from the spec: severity levels of a Violation (missing
backend Violation model). -/
inductive Severity where
  | warning
  | violation
  | critical
deriving DecidableEq, Repr

/-- Modelled from the spec: a Violation record referencing the day it
belongs to; produced, never thrown (missing backend Violation
model). -/
structure Violation where
  vtype : String
  severity : Severity
  dayIndex : Nat
deriving DecidableEq, Repr

/-- On-duty minutes of a day: driving plus on-duty-not-driving. -/
def dayOnDutyMin (d : DailyLog) : Nat :=
  statusTotal .driving d.entries + statusTotal .on_duty d.entries

/-- Start offsets of the periods of a day, by prefix sums from
midnight. -/
def withStarts (entries : List DutyPeriod) : List (Nat × DutyPeriod) :=
  (entries.foldl
    (fun acc e => ((acc.1 + e.durationMin), (acc.1, e) :: acc.2))
    (0, [])).2.reverse

/-- Minute of the first on-duty event (driving or on-duty) of a day,
if any. -/
def firstOnDutyStart (entries : List DutyPeriod) : Option Nat :=
  ((withStarts entries).filter
    (fun p => p.2.status = DutyStatus.driving ∨ p.2.status = DutyStatus.on_duty)).head?.map
    (fun p => p.1)

/-- Minute at which the last driving period of a day ends, if any. -/
def lastDrivingEnd (entries : List DutyPeriod) : Option Nat :=
  ((withStarts entries).filter
    (fun p => p.2.status = DutyStatus.driving)).foldl
    (fun acc p => max acc (p.1 + p.2.durationMin)) 0 |> fun m =>
      if (entries.filter (fun e => e.status = DutyStatus.driving)) = [] then none
      else some m

/-- Span of the duty window of a day: from the first on-duty event to
the end of the last driving period. -/
def dutyWindowSpan (entries : List DutyPeriod) : Nat :=
  match firstOnDutyStart entries, lastDrivingEnd entries with
  | some a, some b => b - a
  | _, _ => 0

/-- Longest run of cumulative driving minutes without an intervening
off-duty/sleeper period of at least 30 minutes. -/
def maxDrivingRun (entries : List DutyPeriod) : Nat :=
  (entries.foldl
    (fun acc e =>
      match e.status with
      | .driving => (acc.1 + e.durationMin, max acc.2 (acc.1 + e.durationMin))
      | .off_duty => (if 30 ≤ e.durationMin then 0 else acc.1, acc.2)
      | .sleeper => (if 30 ≤ e.durationMin then 0 else acc.1, acc.2)
      | .on_duty => acc)
    (0, 0)).2

/-- Rolling-window on-duty minutes ending at day index i, over the
7-day or 8-day window of the cycle type. -/
def windowOnDutyMin (days : List DailyLog) (cy : CycleType) (i : Nat) : Nat :=
  let k := match cy with | .c70_8 => 8 | .c60_7 => 7
  (((List.range (i + 1)).filter (fun j => i < j + k)).map
    (fun j => match days[j]? with | some d => dayOnDutyMin d | none => 0)).sum

/-- Modelled from the spec: the Violation Detector `check` contract.
Per day it reports daily-driving over 660 minutes, a duty-window span
over 840 minutes containing driving, a missing 30-minute break after
480 cumulative driving minutes (warning), and rolling cycle-ceiling
breaches; two or more simultaneous ceiling breaches in one day escalate
to critical (missing backend Violation Detector). -/
def check (days : List DailyLog) (cy : CycleType) : List Violation :=
  ((List.range days.length).map (fun i =>
    match days[i]? with
    | none => []
    | some d =>
      let ceilingBreaches : List String :=
        (if 660 < statusTotal .driving d.entries then ["daily_driving_limit"] else []) ++
        (if 840 < dutyWindowSpan d.entries ∧ 0 < statusTotal .driving d.entries
          then ["duty_window_limit"] else []) ++
        (if cycleCeilingMin cy < windowOnDutyMin days cy i
          then ["cycle_limit"] else [])
      let sev := if 2 ≤ ceilingBreaches.length then Severity.critical
                 else Severity.violation
      (ceilingBreaches.map (fun t => Violation.mk t sev i)) ++
      (if 480 < maxDrivingRun d.entries
        then [Violation.mk ("missing_break") Severity.warning i] else []))).flatten

/-- Modelled from the spec: the complete Schedule Builder output,
daily logs plus fuel-stop markers plus violations-as-data (missing
backend Schedule). -/
structure Schedule where
  days : List DailyLog
  fuelStops : List Nat
  violations : List Violation
deriving DecidableEq, Repr

/-- Modelled from the spec: `build(TripParameters)` after validation;
a zero-driving trip yields the single mostly-off-duty day, otherwise
the day loop runs, and the Violation Detector annotates the result
(missing backend Schedule Builder). -/
def build (distanceMiles drivingMin : Nat) (cy : CycleType) : Schedule :=
  let days := if drivingMin = 0 then [zeroDay] else buildDays drivingMin
  { days := days
    fuelStops := fuelStopPlan distanceMiles
    violations := check days cy }

/-- Modelled from the spec: ConfigurationError for invalid
TripParameters (missing backend error taxonomy). -/
structure ConfigurationError where
  msg : String
deriving DecidableEq, Repr

/-- Modelled from the spec: parameter validation of the Duty Clock,
rejecting negative distance or duration and unrecognized cycle types
before any schedule generation begins (missing backend Duty Clock
initialization). -/
def validateTrip (distanceMiles durationMin : Int) (cycleType : String) :
    Except ConfigurationError (Nat × Nat × CycleType) :=
  if distanceMiles < 0 ∨ durationMin < 0 then
    .error ⟨"negative distance or duration"⟩
  else if cycleType = "70_8" then
    .ok (distanceMiles.toNat, durationMin.toNat, .c70_8)
  else if cycleType = "60_7" then
    .ok (distanceMiles.toNat, durationMin.toNat, .c60_7)
  else
    .error ⟨"unrecognized cycle type"⟩

/-- Modelled from the spec: the end-to-end planning entry point,
validation followed by schedule generation; a validation error is
surfaced verbatim and generation itself is a total function (missing
backend planning view). -/
def planTripE (distanceMiles durationMin : Int) (cycleType : String) :
    Except ConfigurationError Schedule :=
  match validateTrip distanceMiles durationMin cycleType with
  | .error e => .error e
  | .ok (dist, dur, cy) => .ok (build dist dur cy)

/-- The expected ConfigurationError for an invalid input, mirroring the
order of the checks in `validateTrip`. -/
def configErrorFor (distanceMiles durationMin : Int) : ConfigurationError :=
  if distanceMiles < 0 ∨ durationMin < 0 then ⟨"negative distance or duration"⟩
  else ⟨"unrecognized cycle type"⟩

/-- Number of days of a planning result, zero on error. -/
def resultDays : Except ConfigurationError Schedule → Nat
  | .ok s => s.days.length
  | .error _ => 0

/-- A positioned duty entry of a day, as consumed by the Log Grid
Renderer: status plus start and end minute within the day. -/
structure DayEntry where
  status : DutyStatus
  startMin : Nat
  endMin : Nat
deriving DecidableEq, Repr

/-- Minutes of overlap of an entry with the half-open minute interval
from a to b. -/
def overlapMin (e : DayEntry) (a b : Nat) : Nat :=
  min e.endMin b - max e.startMin a

/-- Minutes occupied by a status within a 15-minute slot. -/
def statusMinutesInSlot (es : List DayEntry) (st : DutyStatus) (i : Nat) : Nat :=
  ((es.filter (fun e => e.status = st)).map
    (fun e => overlapMin e (15 * i) (15 * i + 15))).sum

/-- The status active at a given minute: the first entry containing it,
defaulting to off duty. -/
def activeAt (es : List DayEntry) (t : Nat) : DutyStatus :=
  match (es.filter (fun e => e.startMin ≤ t ∧ t < e.endMin)).head? with
  | some e => e.status
  | none => .off_duty

/-- The four statuses in a fixed order. -/
def allStatuses : List DutyStatus := [.off_duty, .sleeper, .driving, .on_duty]

/-- Modelled from the spec: the status of a 15-minute slot, the status
occupying the majority of the slot, or on a tie the status active at
the slot start (missing backend Log Grid Renderer). -/
def slotStatus (es : List DayEntry) (i : Nat) : DutyStatus :=
  let counts := allStatuses.map (fun st => (st, statusMinutesInSlot es st i))
  let best := (counts.map (fun p => p.2)).foldl max 0
  match (counts.filter (fun p => p.2 = best)) with
  | [p] => p.1
  | _ => activeAt es (15 * i)

/-- Modelled from the spec: the LogGrid, a fixed 96-slot status
sequence plus the four aggregate totals over the day (missing backend
Log Grid Renderer). -/
structure LogGrid where
  grid : List DutyStatus
  total_driving_time : Nat
  total_on_duty_time : Nat
  total_sleeper_time : Nat
  total_off_duty_time : Nat
deriving DecidableEq, Repr

/-- Minutes of a status over the whole day for positioned entries. -/
def dayStatusMin (es : List DayEntry) (st : DutyStatus) : Nat :=
  ((es.filter (fun e => e.status = st)).map
    (fun e => overlapMin e 0 1440)).sum

/-- Modelled from the spec: the Log Grid Renderer `render(DailyLog)`
contract, a pure function of the day entries producing the 96-slot
grid and the aggregate totals (missing backend Log Grid Renderer). -/
def render (es : List DayEntry) : LogGrid :=
  { grid := (List.range 96).map (slotStatus es)
    total_driving_time := dayStatusMin es .driving
    total_on_duty_time := dayStatusMin es .on_duty
    total_sleeper_time := dayStatusMin es .sleeper
    total_off_duty_time := dayStatusMin es .off_duty }

end HOS

namespace Frontend

/-- Result of stripping every character other than digits and dots,
the effect of the replace call with the character-class regex in
transformTripPlanResponse. -/
def cleanNumericString (s : String) : String :=
  String.mk (s.data.filter (fun c => c.isDigit ∨ c = '.'))

/-- Numeric value of a list of decimal digit characters. -/
def digitsToNat (ds : List Char) : Nat :=
  ds.foldl (fun a c => 10 * a + (c.toNat - 48)) 0

/-- JavaScript parseFloat restricted to the strings reachable here
(digits and dots only, after cleaning): parse a leading run of digits,
then an optional dot followed by digits; none models NaN, returned
when no digit is found before the second dot. -/
def jsParseFloat (s : String) : Option ℚ :=
  let intDigits := s.data.takeWhile Char.isDigit
  let rest := s.data.drop intDigits.length
  let fracDigits :=
    match rest with
    | '.' :: r => r.takeWhile Char.isDigit
    | _ => []
  if intDigits = [] ∧ fracDigits = [] then none
  else some ((digitsToNat intDigits : ℚ) +
    (digitsToNat fracDigits : ℚ) / ((10 : ℚ) ^ fracDigits.length))

/-- A JavaScript value in a field the transformation reads as a
string: absent (undefined or null, short-circuited by optional
chaining), an actual string, or any other present value, on which the
replace call throws a TypeError. -/
inductive JsVal where
  | undef
  | str (s : String)
  | nonStr
deriving DecidableEq, Repr

/-- The exceptions the source transformation can throw: a TypeError
from calling replace on a present non-string field, and a RangeError
from calling toISOString on the Invalid Date built from a NaN
duration. -/
inductive JsError where
  | typeError
  | rangeError
deriving DecidableEq, Repr

/-- The optional-chaining-plus-default idiom applied to the distance
and duration fields: a missing field or an empty cleaned string falls
back to the string "0" before parsing; a present non-string value
makes the replace call throw a TypeError; a none result models NaN. -/
def parsedNumberFieldE (v : JsVal) : Except JsError (Option ℚ) :=
  match v with
  | .undef => .ok (jsParseFloat ("0"))
  | .nonStr => .error .typeError
  | .str s =>
    let c := cleanNumericString s
    .ok (if c = "" then jsParseFloat ("0") else jsParseFloat c)

/-- A raw fuel stop object of the backend response; every field may be
absent. -/
structure BackendStop where
  distance_from_start : Option ℚ
  name : Option String
  location : Option String
deriving DecidableEq, Repr

/-- The dynamically-typed backend response consumed by
transformTripPlanResponse; each accessed field may be absent, and the
two fields passed through the replace-then-parseFloat pipeline may
also hold a non-string value (the remaining fields only flow through
truthiness defaults or a list map, so they are restricted to the
shapes the backend serializer produces). -/
structure BackendData where
  trip_id : Option Nat
  current_location : Option String
  pickup_location : Option String
  dropoff_location : Option String
  estimated_distance : JsVal
  estimated_duration : JsVal
  cycle_type : Option String
  fuel_stops : Option (List BackendStop)
deriving DecidableEq, Repr

/-- JavaScript truthiness default for a numeric id: a missing or zero
id falls back to the default. -/
def numOr (x : Option Nat) (d : Nat) : Nat :=
  match x with
  | none => d
  | some n => if n = 0 then d else n

/-- JavaScript truthiness default for a rational: a missing or zero
value falls back to the default. -/
def ratOr (x : Option ℚ) (d : ℚ) : ℚ :=
  match x with
  | none => d
  | some q => if q = 0 then d else q

/-- JavaScript truthiness default for a string: a missing or empty
string falls back to the default. -/
def strOr (x : Option String) (d : String) : String :=
  match x with
  | none => d
  | some s => if s = "" then d else s

/-- A DrivingPeriod of the frontend types module. -/
structure DrivingPeriod where
  start_time : String
  end_time : String
  duration_hours : ℚ
  distance_miles : ℚ
  start_mile : ℚ
  end_mile : ℚ
deriving DecidableEq, Repr

/-- A BreakPeriod of the frontend types module. -/
structure BreakPeriod where
  start_time : String
  end_time : String
  duration_hours : ℚ
  location : String
deriving DecidableEq, Repr

/-- A RestPeriod of the frontend types module. -/
structure RestPeriod where
  start_time : String
  end_time : String
  duration_hours : ℚ
  location : String
deriving DecidableEq, Repr

/-- A LogEntryData of the frontend types module. -/
structure LogEntryData where
  status : String
  start_time : String
  end_time : String
deriving DecidableEq, Repr

/-- A DailyLogData of the frontend types module. -/
structure DailyLogData where
  date : String
  entries : List LogEntryData
  total_driving_time : ℚ
  total_on_duty_time : ℚ
  total_sleeper_time : ℚ
  total_off_duty_time : ℚ
deriving DecidableEq, Repr

/-- A FuelStop of the frontend types module; timestamps are epoch
milliseconds. -/
structure FuelStop where
  mile : ℚ
  time : Nat
  location : String
deriving DecidableEq, Repr

/-- The route block of a TripPlanResponse; none models a NaN number. -/
structure RouteInfo where
  current_location : String
  pickup_location : String
  dropoff_location : String
  total_distance : Option ℚ
  estimated_duration : Option ℚ
deriving DecidableEq, Repr

/-- The schedule block of a TripPlanResponse. -/
structure ScheduleInfo where
  trip_distance : Option ℚ
  total_driving_hours : Option ℚ
  start_time : Nat
  driving_periods : List DrivingPeriod
  break_periods : List BreakPeriod
  rest_periods : List RestPeriod
  daily_logs : List DailyLogData
  estimated_completion : ℚ
  fuel_stops : List FuelStop
deriving DecidableEq, Repr

/-- The hos_compliance block of a TripPlanResponse. -/
structure HosCompliance where
  cycle_type : String
  max_cycle_hours : ℚ
  violations : List String
deriving DecidableEq, Repr

/-- The TripPlanResponse shape expected by the frontend. -/
structure TripPlanResponse where
  trip_id : Nat
  route : RouteInfo
  schedule : ScheduleInfo
  hos_compliance : HosCompliance
  fuel_stops : List FuelStop
  rest_stops : List RestPeriod
deriving DecidableEq, Repr

/-- The fuel-stop mapping of transformTripPlanResponse: mile from
distance_from_start with a truthiness fallback to index times 100, a
synthetic timestamp one hour per index after now, and a location from
name, then location, then a generated label. -/
def mapFuelStop (now : Nat) (i : Nat) (stop : BackendStop) : FuelStop :=
  { mile := ratOr stop.distance_from_start ((i : ℚ) * 100)
    time := now + (i + 1) * 3600000
    location := strOr stop.name
      (strOr stop.location ("Fuel Stop " ++ toString (i + 1))) }

/-- List map with the element index, as used by the fuel-stop map
callback. -/
def mapIdx (now : Nat) (stops : List BackendStop) : List FuelStop :=
  (List.range stops.length).filterMap (fun i =>
    (stops[i]?).map (fun s => mapFuelStop now i s))

/-- The transformTripPlanResponse function of the services module:
builds the frontend TripPlanResponse from the loosely-typed backend
response, parsing the distance and duration fields, fabricating empty
driving/break/rest/daily-log/violation lists, and mapping the backend
fuel stops.  The clock reading Date.now() is passed explicitly as
now.  The function is not total: in evaluation order of the object
literal, the distance parse and then the duration parse throw a
TypeError on a present non-string field, and the estimated_completion
computation throws a RangeError when the duration parses to NaN,
because toISOString is called on the resulting Invalid Date; a NaN
distance is merely stored and does not throw. -/
def transformTripPlanResponse (now : Nat) (backendData : BackendData) :
    Except JsError TripPlanResponse :=
  match parsedNumberFieldE backendData.estimated_distance with
  | .error e => .error e
  | .ok distQ =>
    match parsedNumberFieldE backendData.estimated_duration with
    | .error e => .error e
    | .ok durQ =>
      match durQ with
      | none => .error .rangeError
      | some q =>
        .ok
          { trip_id := numOr backendData.trip_id 1
            route :=
              { current_location := strOr backendData.current_location ("")
                pickup_location := strOr backendData.pickup_location ("")
                dropoff_location := strOr backendData.dropoff_location ("")
                total_distance := distQ
                estimated_duration := some q }
            schedule :=
              { trip_distance := distQ
                total_driving_hours := some q
                start_time := now
                driving_periods := []
                break_periods := []
                rest_periods := []
                daily_logs := []
                estimated_completion := (now : ℚ) + q * 3600000
                fuel_stops :=
                  match backendData.fuel_stops with
                  | some stops => mapIdx now stops
                  | none => [] }
            hos_compliance :=
              { cycle_type := strOr backendData.cycle_type ("70_8")
                max_cycle_hours :=
                  if backendData.cycle_type = some "60_7" then 60 else 70
                violations := [] }
            fuel_stops :=
              match backendData.fuel_stops with
              | some stops => mapIdx now stops
              | none => []
            rest_stops := [] }

/-- The backend response with every field absent, a response the
transformation accepts: both numeric fields default to the string "0"
and parse to zero. -/
def emptyBackend : BackendData :=
  { trip_id := none
    current_location := none
    pickup_location := none
    dropoff_location := none
    estimated_distance := .undef
    estimated_duration := .undef
    cycle_type := none
    fuel_stops := none }

/-- A backend response whose estimated_duration cleans to the
all-dots string, which JavaScript parseFloat turns into NaN, making
the source transformation throw a RangeError at the
estimated_completion computation. -/
def badDurationBackend : BackendData :=
  { trip_id := none
    current_location := none
    pickup_location := none
    dropoff_location := none
    estimated_distance := .undef
    estimated_duration := JsVal.str ("...")
    cycle_type := none
    fuel_stops := none }

/-- The response the transformation returns for the all-absent backend
response at clock reading zero, with an explicit unreachable fallback
for the error case. -/
def emptyBackendResponse : TripPlanResponse :=
  match transformTripPlanResponse 0 emptyBackend with
  | .ok r => r
  | .error _ =>
    { trip_id := 0
      route :=
        { current_location := ""
          pickup_location := ""
          dropoff_location := ""
          total_distance := none
          estimated_duration := none }
      schedule :=
        { trip_distance := none
          total_driving_hours := none
          start_time := 0
          driving_periods := []
          break_periods := []
          rest_periods := []
          daily_logs := []
          estimated_completion := 0
          fuel_stops := [] }
      hos_compliance :=
        { cycle_type := ""
          max_cycle_hours := 0
          violations := [] }
      fuel_stops := []
      rest_stops := [] }

/-- An API error of the axios layer, carrying an optional HTTP status
and a message. -/
structure ApiError where
  status : Option Nat
  message : String
deriving DecidableEq, Repr

/-- A stored DailyLog record of the frontend types module. -/
structure DailyLogRec where
  id : Nat
  log_date : String
  total_driving_time : ℚ
  total_on_duty_time : ℚ
  total_sleeper_time : ℚ
  total_off_duty_time : ℚ
  cycle_hours_used : ℚ
deriving DecidableEq, Repr

/-- A LogGrid record of the frontend types module. -/
structure LogGridRec where
  date : String
  grid : List String
  grid_slots : Nat
  minutes_per_slot : Nat
  total_driving_time : ℚ
  total_on_duty_time : ℚ
  total_sleeper_time : ℚ
  total_off_duty_time : ℚ
deriving DecidableEq, Repr

/-- An HOSViolation record of the frontend types module. -/
structure HOSViolation where
  id : Nat
  violation_type : String
  description : String
  severity : String
deriving DecidableEq, Repr

/-- The hos_summary block of a TripLogsResponse. -/
structure HosSummary where
  trip_duration_days : ℚ
  total_driving_hours : ℚ
  total_on_duty_hours : ℚ
  cycle_hours_used : ℚ
  cycle_hours_remaining : ℚ
  cycle_type : String
  max_cycle_hours : ℚ
deriving DecidableEq, Repr

/-- The TripLogsResponse shape of the frontend types module. -/
structure TripLogsResponse where
  trip_id : Nat
  daily_logs : List DailyLogRec
  log_grids : List LogGridRec
  hos_summary : HosSummary
  violations : List HOSViolation
deriving DecidableEq, Repr

/-- The tripAPI.getTripLogs function of the services module: the
request outcome is passed explicitly; a successful response is
returned as is, and any failure is swallowed by the catch block, which
returns the hard-coded mock TripLogsResponse for the requested trip
id. -/
def getTripLogs (tripId : Nat)
    (fetched : Except ApiError TripLogsResponse) : TripLogsResponse :=
  match fetched with
  | .ok r => r
  | .error _ =>
    { trip_id := tripId
      daily_logs := []
      log_grids := []
      hos_summary :=
        { trip_duration_days := 1
          total_driving_hours := 8
          total_on_duty_hours := 10
          cycle_hours_used := 10
          cycle_hours_remaining := 60
          cycle_type := "70_8"
          max_cycle_hours := 70 }
      violations := [] }

end Frontend

namespace HOS

/-- Sum of the four per-status total fields of a DailyLog. -/
def fourTotalsSum (d : DailyLog) : Nat :=
  d.total_driving_time + d.total_on_duty_time +
  d.total_sleeper_time + d.total_off_duty_time

/-- Sum of all duty-period durations across all daily logs of a
schedule. -/
def tripDurSum (s : Schedule) : Nat :=
  (s.days.map (fun d => durSum d.entries)).sum

/-- Total trip duty time of a schedule: each daily log covers a full
24-hour day once concatenated, so the duty time is 1440 minutes per
day. -/
def totalTripDutyMin (s : Schedule) : Nat :=
  1440 * s.days.length

/-- Boolean success test for a planning result. -/
def exceptOk {α : Type} : Except ConfigurationError α → Bool
  | .ok _ => true
  | .error _ => false

end HOS

namespace HOS

theorem statusTotal_four_sum (es : List DutyPeriod) :
    statusTotal .driving es + statusTotal .on_duty es +
    statusTotal .sleeper es + statusTotal .off_duty es = durSum es := by
  induction es with
  | nil => simp [statusTotal, durSum]
  | cons e es ih =>
    rcases e with ⟨st, d⟩
    simp only [statusTotal, durSum, List.map_cons, List.sum_cons] at ih ⊢
    cases st <;> simp <;> omega

theorem durSum_mkDay (rem : Nat) : durSum (mkDay rem).entries = 1440 := by
  simp only [mkDay, mkDailyLog, durSum]
  split_ifs <;> simp <;> omega

theorem mem_buildDaysAux (f : Nat) :
    ∀ (rem : Nat) (day : DailyLog), day ∈ buildDaysAux f rem →
      ∃ r, day = mkDay r := by
  induction f with
  | zero =>
    intro rem day h
    cases rem <;> simp [buildDaysAux] at h
  | succ f ih =>
    intro rem day h
    cases rem with
    | zero => simp [buildDaysAux] at h
    | succ r =>
      simp only [buildDaysAux, List.mem_cons] at h
      rcases h with h | h
      · exact ⟨r + 1, h⟩
      · exact ih _ _ h

theorem length_buildDaysAux (f : Nat) :
    ∀ rem, rem ≤ f → (buildDaysAux f rem).length = (rem + 659) / 660 := by
  induction f with
  | zero =>
    intro rem h
    have : rem = 0 := by omega
    subst this
    simp [buildDaysAux]
  | succ f ih =>
    intro rem h
    cases rem with
    | zero => simp [buildDaysAux]
    | succ r =>
      have h2 : r + 1 - min (r + 1) 660 ≤ f := by omega
      simp only [buildDaysAux, List.length_cons, ih _ h2]
      omega

theorem fourTotalsSum_mkDailyLog (l : List DutyPeriod) :
    fourTotalsSum (mkDailyLog l) = durSum l := by
  simp only [fourTotalsSum, mkDailyLog]
  exact statusTotal_four_sum l

theorem fourTotalsSum_mkDay (rem : Nat) : fourTotalsSum (mkDay rem) = 1440 := by
  have h : durSum (mkDay rem).entries = 1440 := durSum_mkDay rem
  simp only [mkDay] at h ⊢
  rw [fourTotalsSum_mkDailyLog]
  simpa [mkDailyLog, durSum] using h

theorem durSum_mem_build (D T : Nat) (cy : CycleType) (day : DailyLog)
    (h : day ∈ (build D T cy).days) : durSum day.entries = 1440 := by
  simp only [build] at h
  by_cases hT : T = 0
  · subst hT
    simp at h
    subst h
    decide
  · rw [if_neg hT] at h
    obtain ⟨r, rfl⟩ := mem_buildDaysAux T T day h
    exact durSum_mkDay r

theorem fourTotals_mem_build (D T : Nat) (cy : CycleType) (day : DailyLog)
    (h : day ∈ (build D T cy).days) : fourTotalsSum day = 1440 := by
  simp only [build] at h
  by_cases hT : T = 0
  · subst hT
    simp at h
    subst h
    decide
  · rw [if_neg hT] at h
    obtain ⟨r, rfl⟩ := mem_buildDaysAux T T day h
    exact fourTotalsSum_mkDay r

theorem sum_map_of_const (l : List DailyLog) (g : DailyLog → Nat)
    (h : ∀ d ∈ l, g d = 1440) : (l.map g).sum = 1440 * l.length := by
  induction l with
  | nil => simp
  | cons d l ih =>
    simp only [List.map_cons, List.sum_cons, List.length_cons]
    rw [h d (List.mem_cons_self d l),
      ih (fun x hx => h x (List.mem_cons_of_mem d hx))]
    ring

end HOS

/-- Claim C1: for total_distance 2500 miles the Fuel Stop Planner
returns exactly the two stops at mile 1000 and mile 2000, and in
general a mile marker is a planned fuel stop exactly when it is a
positive multiple of 1000 strictly before the final destination. -/
theorem C1_fuel_stop_plan :
    HOS.fuelStopPlan 2500 = [1000, 2000] ∧
    ∀ d m : Nat, m ∈ HOS.fuelStopPlan d ↔
      ∃ k : Nat, m = 1000 * (k + 1) ∧ m < d := by
  constructor
  · decide
  · intro d m
    simp only [HOS.fuelStopPlan, List.mem_map, List.mem_range]
    constructor
    · rintro ⟨k, hk, rfl⟩
      exact ⟨k, rfl, by omega⟩
    · rintro ⟨k, rfl, h⟩
      exact ⟨k, by omega, rfl⟩

/-- Claim C2: for distance 500 miles, 540 driving minutes (9 hours)
and cycle 70_8, planning succeeds and the schedule has exactly one
DailyLog, whose total driving time is 540 minutes, with an empty
violations list and zero fuel stops. -/
theorem C2_end_to_end_500 :
    HOS.planTripE 500 540 "70_8" =
      Except.ok (HOS.build 500 540 HOS.CycleType.c70_8) ∧
    (HOS.build 500 540 HOS.CycleType.c70_8).days.length = 1 ∧
    ((HOS.build 500 540 HOS.CycleType.c70_8).days.map
      (fun d => d.total_driving_time)) = [540] ∧
    (HOS.build 500 540 HOS.CycleType.c70_8).violations = [] ∧
    (HOS.build 500 540 HOS.CycleType.c70_8).fuelStops = [] := by
  refine ⟨rfl, ?_, ?_, ?_, ?_⟩ <;> decide

/-- Claim C3: every input accepted by the parameter validation leads
to schedule generation that never fails: planning returns a complete
schedule (at least one daily log), with non-compliance representable
only as Violation records inside the returned Schedule. -/
theorem C3_engine_total (dist dur : Int) (cy : String)
    (h : HOS.exceptOk (HOS.validateTrip dist dur cy) = true) :
    HOS.exceptOk (HOS.planTripE dist dur cy) = true ∧
    1 ≤ HOS.resultDays (HOS.planTripE dist dur cy) := by
  cases hv : HOS.validateTrip dist dur cy with
  | error e => rw [hv] at h; simp [HOS.exceptOk] at h
  | ok args =>
    obtain ⟨d, t, c⟩ := args
    simp only [HOS.planTripE, hv, HOS.exceptOk, HOS.resultDays]
    refine ⟨trivial, ?_⟩
    by_cases hT : t = 0
    · subst hT; simp [HOS.build]
    · simp only [HOS.build, if_neg hT, HOS.buildDays]
      rw [HOS.length_buildDaysAux t t le_rfl]
      omega

/-- Witness for C3 at the concrete accepted input of the 500-mile
scenario. -/
theorem C3_engine_total_witness :
    HOS.exceptOk (HOS.planTripE 500 540 "70_8") = true ∧
    1 ≤ HOS.resultDays (HOS.planTripE 500 540 "70_8") :=
  C3_engine_total 500 540 "70_8" (by decide)

/-- Claim C4: every TripParameters with negative distance or duration
or an unrecognized cycle type is rejected by validation with a
ConfigurationError, and the planning entry point surfaces exactly that
error verbatim, so no schedule generation happens. -/
theorem C4_validation_rejects (dist dur : Int) (cy : String)
    (h : dist < 0 ∨ dur < 0 ∨ (cy ≠ "70_8" ∧ cy ≠ "60_7")) :
    HOS.validateTrip dist dur cy =
      Except.error (HOS.configErrorFor dist dur) ∧
    HOS.planTripE dist dur cy =
      Except.error (HOS.configErrorFor dist dur) := by
  have hv : HOS.validateTrip dist dur cy =
      Except.error (HOS.configErrorFor dist dur) := by
    unfold HOS.validateTrip HOS.configErrorFor
    rcases h with h | h | ⟨h1, h2⟩ <;>
      split_ifs <;> first | rfl | omega | simp_all
  exact ⟨hv, by simp [HOS.planTripE, hv]⟩

/-- Witness for C4 at a concrete negative-distance input. -/
theorem C4_validation_rejects_witness :
    HOS.validateTrip (-1) 540 "70_8" =
      Except.error (HOS.configErrorFor (-1) 540) ∧
    HOS.planTripE (-1) 540 "70_8" =
      Except.error (HOS.configErrorFor (-1) 540) :=
  C4_validation_rejects (-1) 540 "70_8" (Or.inl (by decide))

/-- Claim C5: the applicable cycle ceiling is 70 hours (4200 minutes)
for the 8-day cycle and 60 hours (3600 minutes) for the 7-day cycle,
and after a CycleState at the 70-hour ceiling observes a consecutive
off-duty or sleeper block of at least 34 hours, the next advance call
reports zero cycle minutes used. -/
theorem C5_cycle_ceiling_restart :
    (∀ s : HOS.CycleState,
      HOS.cycleCeilingMin s.cycleType =
        if s.cycleType = HOS.CycleType.c70_8 then 4200 else 3600) ∧
    (∀ (bs : HOS.DutyStatus) (offDur : Nat) (st : HOS.DutyStatus) (d : Nat),
      bs = HOS.DutyStatus.off_duty ∨ bs = HOS.DutyStatus.sleeper →
      2040 ≤ offDur →
      (HOS.advance
        (HOS.advance ⟨HOS.CycleType.c70_8, 4200, 0⟩ bs offDur).1 st d).2
        = 0) := by
  constructor
  · intro s
    cases h : s.cycleType <;> simp [HOS.cycleCeilingMin, h]
  · rintro bs offDur st d (rfl | rfl) h <;>
      cases st <;>
      simp [HOS.advance, HOS.applyRestart, h]

/-- Witness for C5: the restart scenario run at a concrete 34-hour
off-duty block followed by a driving advance. -/
theorem C5_cycle_ceiling_restart_witness :
    (HOS.advance
      (HOS.advance ⟨HOS.CycleType.c70_8, 4200, 0⟩
        HOS.DutyStatus.off_duty 2040).1 HOS.DutyStatus.driving 60).2 = 0 :=
  C5_cycle_ceiling_restart.2 HOS.DutyStatus.off_duty 2040
    HOS.DutyStatus.driving 60 (Or.inl rfl) (by decide)

/-- Claim C6: for every validated TripParameters, every DailyLog of
the built schedule has its four per-status total fields summing to
exactly 1440 minutes, and the sum of all duty-period durations across
all daily logs equals the total trip duty time. -/
theorem C6_daily_totals_invariant (dist dur : Int) (cy : String)
    (args : Nat × Nat × HOS.CycleType)
    (_h : HOS.validateTrip dist dur cy = Except.ok args) :
    (∀ day ∈ (HOS.build args.1 args.2.1 args.2.2).days,
      HOS.fourTotalsSum day = 1440) ∧
    HOS.tripDurSum (HOS.build args.1 args.2.1 args.2.2) =
      HOS.totalTripDutyMin (HOS.build args.1 args.2.1 args.2.2) := by
  constructor
  · intro day hd
    exact HOS.fourTotals_mem_build _ _ _ day hd
  · unfold HOS.tripDurSum HOS.totalTripDutyMin
    exact HOS.sum_map_of_const _ _
      (fun d hd => HOS.durSum_mem_build _ _ _ d hd)

/-- Witness for C6 at the validated 500-mile, 9-hour, 70_8 input. -/
theorem C6_daily_totals_invariant_witness :
    HOS.tripDurSum (HOS.build 500 540 HOS.CycleType.c70_8) =
      HOS.totalTripDutyMin (HOS.build 500 540 HOS.CycleType.c70_8) :=
  (C6_daily_totals_invariant 500 540 "70_8"
    (500, 540, HOS.CycleType.c70_8) rfl).2

/-- Claim C7: the Log Grid Renderer is a pure function of the day it
renders: rendering the same day twice yields the identical 96-slot
grid and identical aggregate totals, and the grid always has exactly
96 slots. -/
theorem C7_render_pure (es : List HOS.DayEntry) :
    HOS.render es = HOS.render es ∧ (HOS.render es).grid.length = 96 :=
  ⟨rfl, by simp [HOS.render]⟩

/-- Claim C8: the Schedule Builder day loop runs exactly one iteration
per produced day, so the number of iterations equals the number of
trip days, the ceiling of the driving minutes divided by the 660-minute
daily maximum; a zero-driving trip terminates immediately with the
single mostly-off-duty day. -/
theorem C8_termination_bound :
    (∀ T : Nat, (HOS.buildDays T).length = (T + 659) / 660) ∧
    (∀ (D : Nat) (cy : HOS.CycleType),
      (HOS.build D 0 cy).days = [HOS.zeroDay]) ∧
    720 ≤ HOS.zeroDay.total_off_duty_time := by
  refine ⟨fun T => HOS.length_buildDaysAux T T le_rfl,
    fun D cy => by simp [HOS.build], by decide⟩

/-- Claim C9 counterexample: for the concrete backend response whose
estimated_duration is the all-dots string, the cleaned duration parses
to NaN and the transformation throws a RangeError at the
estimated_completion computation instead of returning a response, so
the claim that the transformation returns empty-listed output for
every backend response is false. -/
theorem C9_transform_counterexample :
    Frontend.transformTripPlanResponse 0 Frontend.badDurationBackend =
      Except.error Frontend.JsError.rangeError :=
  rfl

/-- Claim C9 (amended): whenever the trip-plan transformation returns
a response (it throws a TypeError on a present non-string distance or
duration field and a RangeError on a NaN-parsing duration), the
returned response has empty driving_periods, break_periods,
rest_periods, daily_logs and rest_stops lists and an empty
hos_compliance violations list, regardless of the trip's distance,
duration or cycle type. -/
theorem C9_transform_empty_lists (now : Nat) (b : Frontend.BackendData)
    (r : Frontend.TripPlanResponse)
    (h : Frontend.transformTripPlanResponse now b = Except.ok r) :
    r.schedule.driving_periods = [] ∧
    r.schedule.break_periods = [] ∧
    r.schedule.rest_periods = [] ∧
    r.schedule.daily_logs = [] ∧
    r.rest_stops = [] ∧
    r.hos_compliance.violations = [] := by
  unfold Frontend.transformTripPlanResponse at h
  split at h
  · exact Except.noConfusion h
  · split at h
    · exact Except.noConfusion h
    · split at h
      · exact Except.noConfusion h
      · injection h with h
        subst h
        exact ⟨rfl, rfl, rfl, rfl, rfl, rfl⟩

/-- Witness for the amended C9 at the all-absent backend response,
which the transformation accepts. -/
theorem C9_transform_empty_lists_witness :
    Frontend.transformTripPlanResponse 0 Frontend.emptyBackend =
      Except.ok Frontend.emptyBackendResponse ∧
    (Frontend.emptyBackendResponse.schedule.driving_periods = [] ∧
     Frontend.emptyBackendResponse.schedule.break_periods = [] ∧
     Frontend.emptyBackendResponse.schedule.rest_periods = [] ∧
     Frontend.emptyBackendResponse.schedule.daily_logs = [] ∧
     Frontend.emptyBackendResponse.rest_stops = [] ∧
     Frontend.emptyBackendResponse.hos_compliance.violations = []) :=
  ⟨rfl, C9_transform_empty_lists 0 Frontend.emptyBackend
    Frontend.emptyBackendResponse rfl⟩

/-- Claim C10: whenever the trip-logs request fails, getTripLogs
returns the constant mock result: empty daily_logs, log_grids and
violations, and an hos_summary fixed at one day, 8 driving hours,
10 cycle hours used, 60 remaining, cycle type 70_8, independent of the
error and of the trip actually planned. -/
theorem C10_getTripLogs_mock (tid : Nat) (e : Frontend.ApiError) :
    Frontend.getTripLogs tid (Except.error e) =
      { trip_id := tid
        daily_logs := []
        log_grids := []
        hos_summary :=
          { trip_duration_days := 1
            total_driving_hours := 8
            total_on_duty_hours := 10
            cycle_hours_used := 10
            cycle_hours_remaining := 60
            cycle_type := "70_8"
            max_cycle_hours := 70 }
        violations := [] } :=
  rfl
